import Mathlib

/-!
# Verification of the autonomous operations core of the blockchain inventory system

This file gives a shallow embedding, in Lean 4, of the self-healing and
optimization agents of the repository (`src/ai-agents/src/healing/HealingAgent.ts`
and the `OptimizationAgent` source), together with theorems settling the frozen
claims about them.

External collaborators of the agents (the persistence store, the operational
API, the alert sink, the prediction engine, the circuit-breaker utility class)
are not part of the embedded source tree; where a claim depends on their
behaviour they are modelled from the specification, and each such definition
carries a doc comment starting with `Modelled from the spec:`.

Numbers manipulated by the agents (confidences, quantities, metric readings)
are JavaScript numbers used at exact values by the code; they are embedded as
rationals.  Timestamps (`Date.now()`) are embedded as naturals.
-/

namespace BlockchainInventory

/-! ## Shared enumerations (from the TypeScript union types) -/

/-- Severity levels shared by failures, healing actions and recommendations. -/
inductive Severity
  | low
  | medium
  | high
  | critical
deriving DecidableEq, Repr

/-- Type field of `Failure` in `HealingAgent.ts`. -/
inductive FailureType
  | service
  | database
  | blockchain
  | network
  | resource
deriving DecidableEq, Repr

/-- Type field of `HealingAction` in `HealingAgent.ts`. -/
inductive HealingType
  | restart
  | rollback
  | scale
  | reconnect
  | cleanup
deriving DecidableEq, Repr

/-- Status field of `HealingAction` in `HealingAgent.ts`. -/
inductive ActionStatus
  | pending
  | executing
  | completed
  | failed
deriving DecidableEq, Repr

/-! ## String constants appearing in the source -/

def compDatabase : String := "database"
def compBlockchain : String := "blockchain"
def compApi : String := "api"
def compRedis : String := "redis"
def compSystem : String := "system"
def compNetwork : String := "network"
def wordConnection : String := "connection"
def dashSep : String := "-"
def healingIdBase : String := "healing-"
def msgAutoHealingFor : String := "Auto-healing action for "
def msgFailureDetectedIn : String := "Failure detected in "
def msgHealingActionSp : String := "Healing action "
def msgCompletedFor : String := " completed for "
def msgFailedFor : String := " failed for "
def msgUnknownReconnect : String := "Unknown service for reconnection: "
def msgUnknownCleanup : String := "Unknown component for cleanup: "
def srcResourceMonitor : String := "resource-monitor"
def cpuHighIdBase : String := "cpu-high-"
def memoryHighIdBase : String := "memory-high-"
def diskHighIdBase : String := "disk-high-"
def descHighCpu : String := "High CPU usage detected"
def descHighMemory : String := "High memory usage detected"
def descHighDisk : String := "High disk usage detected"

/-- JavaScript `String.prototype.includes`: substring containment, expressed
through `String.splitOn` (the pattern occurs iff splitting on it produces
more than one piece). -/
def stringIncludes (s pat : String) : Bool :=
  (s.splitOn pat).length != 1

/-! ## Data model of the healing agent -/

/-- The `Failure` record of `HealingAgent.ts` (the dynamic `metrics` payload
and the optional `healingActions` back-references are not used by any verified
property and are omitted). -/
structure Failure where
  id : String
  component : String
  type : FailureType
  severity : Severity
  description : String
  timestamp : Nat
  detectionSource : String
  resolved : Bool
deriving DecidableEq, Repr

/-- The `HealingAction` record of `HealingAgent.ts`; the `result` payload of a
remediation primitive is carried as a string. -/
structure HealingAction where
  id : String
  type : HealingType
  component : String
  severity : Severity
  description : String
  executedAt : Option Nat
  status : ActionStatus
  result : Option String
  errorMessage : Option String
deriving DecidableEq, Repr

/-- Configuration record `HealingConfig` of `HealingAgent.ts`, flattened. -/
structure HealingConfig where
  healthCheckInterval : Nat
  autoRecoveryInterval : Nat
  maxFailures : Nat
  recoveryTimeout : Nat
  circuitBreakerThreshold : Nat
  autoHealingEnabled : Bool
  restartServices : Bool
  rollbackTransactions : Bool
  scaleResources : Bool
deriving DecidableEq, Repr

/-- Notifications delivered through the alert sink (`alertService`). -/
inductive Alert
  | failureAlert (message : String)
  | criticalAlert (message : String)
  | recoveryAlert (message : String)
deriving DecidableEq, Repr

/-! ## Failure detection and deduplication -/

/-- Resource metrics consumed by `detectResourceFailures`
(`systemService.getResourceMetrics()` readings). -/
structure ResourceMetrics where
  cpu : ℚ
  memory : ℚ
  disk : ℚ
deriving DecidableEq, Repr

/-- Embedding of `detectResourceFailures` from `HealingAgent.ts`: cpu>90 is a high-severity
resource failure, memory>90 critical, disk>85 medium; ids embed the detection
timestamp (`Date.now()`), here the parameter `now`. -/
def detectResourceFailures (now : Nat) (m : ResourceMetrics) : List Failure :=
  (if m.cpu > 90 then
    [{ id := cpuHighIdBase ++ toString now, component := compSystem,
       type := FailureType.resource, severity := Severity.high,
       description := descHighCpu, timestamp := now,
       detectionSource := srcResourceMonitor, resolved := false }]
   else []) ++
  (if m.memory > 90 then
    [{ id := memoryHighIdBase ++ toString now, component := compSystem,
       type := FailureType.resource, severity := Severity.critical,
       description := descHighMemory, timestamp := now,
       detectionSource := srcResourceMonitor, resolved := false }]
   else []) ++
  (if m.disk > 85 then
    [{ id := diskHighIdBase ++ toString now, component := compSystem,
       type := FailureType.resource, severity := Severity.medium,
       description := descHighDisk, timestamp := now,
       detectionSource := srcResourceMonitor, resolved := false }]
   else [])

/-- Modelled from the spec: the external Store interface persists and queries
Failure records (`databaseService.getFailure` is not under `src/`).  A query
by id returns the first stored record with that id. -/
def getFailure (store : List Failure) (id : String) : Option Failure :=
  store.find? (fun g => g.id == id)

/-- Modelled from the spec: the external Store interface persists and queries
Failure records (`databaseService.storeFailure` is not under `src/`).
Persisting appends the record. -/
def storeFailure (store : List Failure) (f : Failure) : List Failure :=
  store ++ [f]

/-- Embedding of `handleFailure` from `HealingAgent.ts`: if an already-stored record with the
same id is unresolved, return without storing; otherwise store the failure and
send a failure alert.  Returns the updated store and the alerts sent. -/
def handleFailure (store : List Failure) (failure : Failure) :
    List Failure × List Alert :=
  match getFailure store failure.id with
  | some existing =>
    if existing.resolved = false then (store, [])
    else (storeFailure store failure,
          [Alert.failureAlert (msgFailureDetectedIn ++ failure.component)])
  | none => (storeFailure store failure,
             [Alert.failureAlert (msgFailureDetectedIn ++ failure.component)])

/-- The deduplication key of a Failure named by the spec:
(component, type, time-bucket), the time bucket being the `Date.now()`
reading embedded in the record. -/
def dedupKey (f : Failure) : String × FailureType × Nat :=
  (f.component, f.type, f.timestamp)

/-- Number of unresolved Failure records in the store carrying a given
deduplication key. -/
def countUnresolvedWithKey (store : List Failure)
    (k : String × FailureType × Nat) : Nat :=
  (store.filter (fun g => decide (dedupKey g = k) && (g.resolved == false))).length

/-! ## Healing-action creation and auto recovery -/

/-- Embedding of `createHealingAction` from `HealingAgent.ts`.  The switch on `failure.type`
handles `service`, `blockchain`, `database` and `resource` explicitly; the
`default:` branch (reached by `network` failures) also produces an action, of
type `restart`.  The `database` case repeats the redundant
`failure.type === database` conjunct of the source. -/
def createHealingAction (now : Nat) (failure : Failure) : HealingAction :=
  let actionId := healingIdBase ++ failure.component ++ dashSep ++ toString now
  let actionType : HealingType :=
    match failure.type with
    | FailureType.service => HealingType.restart
    | FailureType.blockchain => HealingType.reconnect
    | FailureType.database =>
        if (failure.type == FailureType.database) &&
            stringIncludes failure.description wordConnection then
          HealingType.reconnect
        else HealingType.cleanup
    | FailureType.resource => HealingType.scale
    | FailureType.network => HealingType.restart
  { id := actionId, type := actionType, component := failure.component,
    severity := failure.severity,
    description := msgAutoHealingFor ++ failure.description,
    executedAt := none, status := ActionStatus.pending,
    result := none, errorMessage := none }

/-- The loop body of `performAutoRecovery` in `HealingAgent.ts`: for each
detected failure, a healing action is created and executed exactly when the
severity of the failure is `critical` or `high`.  Returns the actions that are
created and passed to `executeHealingAction`. -/
def autoRecoveryActions (now : Nat) (failures : List Failure) :
    List HealingAction :=
  failures.filterMap (fun f =>
    if (f.severity == Severity.critical) || (f.severity == Severity.high) then
      some (createHealingAction now f)
    else none)

/-! ## Execution of healing actions -/

/-- Modelled from the spec: the external operational API
(`systemService` / `databaseService` / `blockchainService` remediation
primitives are not under `src/`).  Each primitive returns a result payload or
raises an error message. -/
structure OperationalApi where
  restartService : String → Except String String
  rollbackTransaction : String → Except String String
  scaleResources : String → Except String String
  databaseReconnect : Except String String
  blockchainReconnect : Except String String
  databaseCleanup : Except String String
  systemCleanup : Except String String

/-- Embedding of `reconnectService` from `HealingAgent.ts`: dispatches on the component name,
throwing for anything other than the database or the blockchain. -/
def reconnectService (api : OperationalApi) (service : String) :
    Except String String :=
  if service == compDatabase then api.databaseReconnect
  else if service == compBlockchain then api.blockchainReconnect
  else Except.error (msgUnknownReconnect ++ service)

/-- Embedding of `cleanupResources` from `HealingAgent.ts`: dispatches on the component name,
throwing for anything other than the database or the system. -/
def cleanupResources (api : OperationalApi) (component : String) :
    Except String String :=
  if component == compDatabase then api.databaseCleanup
  else if component == compSystem then api.systemCleanup
  else Except.error (msgUnknownCleanup ++ component)

/-- The switch inside `executeHealingAction` selecting the remediation
primitive for an action type.  Every constructor of `HealingType` is handled,
so the `default: throw` branch of the source is unreachable. -/
def runHealingPrimitive (api : OperationalApi) (t : HealingType)
    (component : String) : Except String String :=
  match t with
  | HealingType.restart => api.restartService component
  | HealingType.rollback => api.rollbackTransaction component
  | HealingType.scale => api.scaleResources component
  | HealingType.reconnect => reconnectService api component
  | HealingType.cleanup => cleanupResources api component

/-- Name of a healing-action type as interpolated into alert messages. -/
def healingTypeName : HealingType → String
  | HealingType.restart => "restart"
  | HealingType.rollback => "rollback"
  | HealingType.scale => "scale"
  | HealingType.reconnect => "reconnect"
  | HealingType.cleanup => "cleanup"

/-- Observable effects of one `executeHealingAction` call: how many times a
remediation primitive was invoked, the alerts sent, the actions persisted via
`storeHealingAction`, and the successive values taken by `action.status`. -/
structure ExecutionRecord where
  primitiveCalls : Nat
  alerts : List Alert
  storedActions : List HealingAction
  statusTrace : List ActionStatus
deriving DecidableEq, Repr

/-- Embedding of `executeHealingAction` from `HealingAgent.ts`.  The status is set to
`executing` unconditionally (there is no guard on the incoming status), the
primitive runs once, and the catch block turns a raised error into
`status = failed` with the message recorded and a critical alert; on success a
recovery alert is sent.  Either way the resulting action is persisted and
returned — the function itself never raises and never retries. -/
def executeHealingAction (api : OperationalApi) (now : Nat)
    (action : HealingAction) : HealingAction × ExecutionRecord :=
  let started :=
    { action with status := ActionStatus.executing, executedAt := some now }
  match runHealingPrimitive api action.type action.component with
  | Except.ok r =>
    let done := { started with status := ActionStatus.completed, result := some r }
    (done,
     { primitiveCalls := 1,
       alerts := [Alert.recoveryAlert (msgHealingActionSp ++
         healingTypeName action.type ++ msgCompletedFor ++ action.component)],
       storedActions := [done],
       statusTrace := [ActionStatus.executing, ActionStatus.completed] })
  | Except.error msg =>
    let halted :=
      { started with status := ActionStatus.failed, errorMessage := some msg }
    (halted,
     { primitiveCalls := 1,
       alerts := [Alert.criticalAlert (msgHealingActionSp ++
         healingTypeName action.type ++ msgFailedFor ++ action.component)],
       storedActions := [halted],
       statusTrace := [ActionStatus.executing, ActionStatus.failed] })

/-! ## Component health checks and circuit breakers -/

/-- Health of the external dependencies as observed by one probe cycle:
whether the health check of each service succeeds.  The `redisHealthy` reading
exists in the environment but the redis probe of the source is commented out and
never consults it. -/
structure HealthCheckOracle where
  databaseHealthy : Bool
  blockchainHealthy : Bool
  apiHealthy : Bool
  redisHealthy : Bool
deriving DecidableEq, Repr

/-- Embedding of `checkComponentHealth` from `HealingAgent.ts`: database, blockchain and api
report the outcome of their probes (a thrown probe error is caught and turns
into `false`); the redis branch is a stub returning `true` with the actual
ping commented out; every other component name falls to `default: false`. -/
def checkComponentHealth (o : HealthCheckOracle) (component : String) : Bool :=
  if component == compDatabase then o.databaseHealthy
  else if component == compBlockchain then o.blockchainHealthy
  else if component == compApi then o.apiHealthy
  else if component == compRedis then true
  else false

/-- The component list monitored by `initializeCircuitBreakers` and
`performHealthCheck`. -/
def monitoredComponents : List String :=
  [compDatabase, compBlockchain, compApi, compRedis]

/-- Circuit-breaker states.  `opened` embeds the `open` state of the spec (the
word `open` is a Lean keyword). -/
inductive BreakerState
  | closed
  | opened
  | halfOpen
deriving DecidableEq, Repr

/-- Modelled from the spec: the `CircuitBreaker` utility class is imported by
`HealingAgent.ts` but its source is not under `src/`; this is the
state record of the spec: state, consecutiveFailures, openedAt. -/
structure BreakerData where
  state : BreakerState
  consecutiveFailures : Nat
  openedAt : Option Nat
deriving DecidableEq, Repr

/-- Modelled from the spec: `recordSuccess` — a success while half-open closes
the breaker; consecutive failures reset. -/
def recordSuccess (_b : BreakerData) : BreakerData :=
  { state := BreakerState.closed, consecutiveFailures := 0, openedAt := none }

/-- Modelled from the spec: `recordFailure` — closed transitions to open once
`consecutiveFailures ≥ failureThreshold`; a failure while half-open reopens
the breaker with `openedAt` reset.  It never raises. -/
def recordFailure (threshold : Nat) (now : Nat) (b : BreakerData) :
    BreakerData :=
  let n := b.consecutiveFailures + 1
  match b.state with
  | BreakerState.halfOpen =>
    { state := BreakerState.opened, consecutiveFailures := n, openedAt := some now }
  | _ =>
    if threshold ≤ n then
      { state := BreakerState.opened, consecutiveFailures := n, openedAt := some now }
    else { b with consecutiveFailures := n }

/-- The per-component body of `performHealthCheck` in `HealingAgent.ts`:
record a success on the breaker of the component when its probe reports healthy,
a failure otherwise (a probe that throws is likewise recorded as a failure). -/
def healthCheckStep (threshold now : Nat) (o : HealthCheckOracle)
    (component : String) (b : BreakerData) : BreakerData :=
  if checkComponentHealth o component then recordSuccess b
  else recordFailure threshold now b

/-- Breaker of one component after a sequence of health-monitoring cycles, each
cycle supplying a clock reading and a probe outcome. -/
def runHealthChecks (threshold : Nat) (component : String)
    (cycles : List (Nat × HealthCheckOracle)) (b : BreakerData) : BreakerData :=
  cycles.foldl (fun st cyc => healthCheckStep threshold cyc.1 cyc.2 component st) b

/-- Breaker state installed by `initializeCircuitBreakers`. -/
def initialBreaker : BreakerData :=
  { state := BreakerState.closed, consecutiveFailures := 0, openedAt := none }

/-! ## Agent lifecycle (start/stop and interval timers) -/

/-- The periodic concerns scheduled by `HealingAgent.start()`. -/
inductive HealingConcern
  | healthCheck
  | autoRecovery
deriving DecidableEq, Repr

/-- The periodic concerns scheduled by `OptimizationAgent.start()`. -/
inductive OptimizationConcern
  | prediction
  | analysis
  | recommendation
deriving DecidableEq, Repr

/-- Lifecycle state shared by both agent classes: the `isRunning` flag and the
`intervals` array of scheduled timers, each timer tagged by its concern. -/
structure AgentLoopState (C : Type) where
  isRunning : Bool
  intervals : List C
deriving DecidableEq, Repr

/-- State of a freshly constructed agent: not running, no timers. -/
def initialAgentState {C : Type} : AgentLoopState C :=
  { isRunning := false, intervals := [] }

/-- Timers pushed by `HealingAgent.start()`: `startHealthMonitoring` always
schedules one, `startAutoRecovery` schedules one only when auto healing is
enabled. -/
def healingStartTimers (cfg : HealingConfig) : List HealingConcern :=
  [HealingConcern.healthCheck] ++
    (if cfg.autoHealingEnabled then [HealingConcern.autoRecovery] else [])

/-- Embedding of `HealingAgent.start()`: a warning and early return when already running;
otherwise the running flag is set and the monitoring loops are scheduled. -/
def healingStart (cfg : HealingConfig) (s : AgentLoopState HealingConcern) :
    AgentLoopState HealingConcern :=
  if s.isRunning then s
  else { isRunning := true, intervals := s.intervals ++ healingStartTimers cfg }

/-- Embedding of `HealingAgent.stop()`: a warning and early return when not running;
otherwise every interval is cleared and the array emptied. -/
def healingStop (s : AgentLoopState HealingConcern) :
    AgentLoopState HealingConcern :=
  if s.isRunning then { isRunning := false, intervals := [] } else s

/-- Timers pushed by `OptimizationAgent.start()`: the prediction, analysis and
recommendation loops, unconditionally. -/
def optimizationStartTimers : List OptimizationConcern :=
  [OptimizationConcern.prediction, OptimizationConcern.analysis,
   OptimizationConcern.recommendation]

/-- Embedding of `OptimizationAgent.start()`: a warning and early return when already
running; otherwise the three loops are scheduled. -/
def optimizationStart (s : AgentLoopState OptimizationConcern) :
    AgentLoopState OptimizationConcern :=
  if s.isRunning then s
  else { isRunning := true, intervals := s.intervals ++ optimizationStartTimers }

/-- Embedding of `OptimizationAgent.stop()`: a warning and early return when not running;
otherwise every interval is cleared and the array emptied. -/
def optimizationStop (s : AgentLoopState OptimizationConcern) :
    AgentLoopState OptimizationConcern :=
  if s.isRunning then { isRunning := false, intervals := [] } else s

/-- A lifecycle call on an agent. -/
inductive LifecycleOp
  | startOp
  | stopOp
deriving DecidableEq, Repr

/-- Lifecycle state of the healing agent after a sequence of start/stop calls. -/
def healingRun (cfg : HealingConfig) (ops : List LifecycleOp)
    (s : AgentLoopState HealingConcern) : AgentLoopState HealingConcern :=
  ops.foldl (fun st op =>
    match op with
    | LifecycleOp.startOp => healingStart cfg st
    | LifecycleOp.stopOp => healingStop st) s

/-- Lifecycle state of the optimization agent after a sequence of start/stop
calls. -/
def optimizationRun (ops : List LifecycleOp)
    (s : AgentLoopState OptimizationConcern) : AgentLoopState OptimizationConcern :=
  ops.foldl (fun st op =>
    match op with
    | LifecycleOp.startOp => optimizationStart st
    | LifecycleOp.stopOp => optimizationStop st) s

/-- Number of scheduled timers of one concern. -/
def timerCount {C : Type} [BEq C] (s : AgentLoopState C) (c : C) : Nat :=
  (s.intervals.filter (fun x => x == c)).length

/-! ## Optimization agent: data model -/

/-- Configuration record `OptimizationConfig` of the optimization agent, flattened. -/
structure OptimizationConfig where
  predictionInterval : Nat
  analysisInterval : Nat
  recommendationInterval : Nat
  lowStockThreshold : ℚ
  overstockThreshold : ℚ
  reorderPoint : ℚ
  predictionAccuracy : ℚ
  demandForecasting : Bool
  fraudDetection : Bool
  costOptimization : Bool
  resourceOptimization : Bool
deriving DecidableEq, Repr

/-- An inventory item as consumed by the optimization agent (the fields the
agent reads from the dynamically-typed rows). -/
structure Item where
  id : String
  sku : String
  name : String
  quantity : ℚ
  unitCost : ℚ
deriving DecidableEq, Repr

/-- The raw output of `predictionEngine.predictDemand(item)`. -/
structure RawPrediction where
  value : ℚ
  confidence : ℚ
  factors : List String
deriving DecidableEq, Repr

/-- Type field of `Prediction` in the optimization agent. -/
inductive PredictionType
  | demand
  | price
  | fraud
  | resource
deriving DecidableEq, Repr

/-- The `Prediction` record of the optimization agent. -/
structure Prediction where
  id : String
  type : PredictionType
  target : String
  timeframe : String
  prediction : ℚ
  confidence : ℚ
  factors : List String
  createdAt : Nat
deriving DecidableEq, Repr

/-- Type field of `Recommendation` in the optimization agent. -/
inductive RecommendationType
  | reorder
  | adjustment
  | fraudAlert
  | costSaving
  | resourceOptimization
deriving DecidableEq, Repr

/-- Status field of `Recommendation` in the optimization agent. -/
inductive RecommendationStatus
  | pending
  | reviewed
  | accepted
  | rejected
  | implemented
deriving DecidableEq, Repr

/-- The `data` payload attached to a reorder recommendation at its
construction site. -/
structure ReorderData where
  itemId : String
  sku : String
  currentStock : ℚ
  predictedDemand : ℚ
  recommendedOrder : ℚ
  reorderPoint : ℚ
deriving DecidableEq, Repr

/-- The `Recommendation` record of the optimization agent (`impact` flattened;
the dynamic `data` payload carried for reorder recommendations only, which are
the ones the verified properties inspect). -/
structure Recommendation where
  id : String
  type : RecommendationType
  priority : Severity
  title : String
  description : String
  impactCost : ℚ
  impactRisk : String
  impactBenefit : String
  reorderData : Option ReorderData
  confidence : ℚ
  createdAt : Nat
  status : RecommendationStatus
deriving DecidableEq, Repr

def demandIdBase : String := "demand-"
def reorderIdBase : String := "reorder-"
def timeframe30d : String := "30d"
def reorderTitleBase : String := "Reorder recommendation for "
def descCurrentStock : String := "Current stock: "
def descPredictedDemand : String := ", Predicted demand: "
def descRecommendedOrder : String := ", Recommended order: "
def riskStockout : String := "Stockout risk"
def benefitPreventStockouts : String := "Prevent stockouts"

/-! ## Optimization agent: operations -/

/-- Embedding of `generateDemandPredictions` from the optimization agent: for each inventory
row, the prediction engine is consulted; a result is turned into a stored
`Prediction` record only when its confidence is strictly greater than the
literal `0.7`.  The returned list is exactly the list of stored predictions
(the store loop persists each element).  The configuration is passed but — as
in the source — never consulted here. -/
def generateDemandPredictions (_cfg : OptimizationConfig)
    (predictDemand : Item → Option RawPrediction)
    (inventoryData : List Item) (now : Nat) : List Prediction :=
  inventoryData.filterMap (fun item =>
    match predictDemand item with
    | some p =>
      if p.confidence > 7/10 then
        some { id := demandIdBase ++ item.sku ++ dashSep ++ toString now,
               type := PredictionType.demand, target := item.sku,
               timeframe := timeframe30d, prediction := p.value,
               confidence := p.confidence, factors := p.factors,
               createdAt := now }
      else none
    | none => none)

/-- Embedding of `calculateReorderQuantity` from the optimization agent: safety stock is the
configured reorder point, lead-time demand is the 30-day prediction scaled to
the 7-day lead time, and the result is clamped at zero. -/
def calculateReorderQuantity (cfg : OptimizationConfig) (item : Item)
    (prediction : Prediction) : ℚ :=
  let safetyStock := cfg.reorderPoint
  let leadTimeDemand := (prediction.prediction / 30) * 7
  let currentStock := item.quantity
  max 0 (leadTimeDemand + safetyStock - currentStock)

/-- Formalisation of the reorder formula as the spec words it:
`recommendedOrder = max(0, leadTimeDemand + safetyStock − currentStock)` with
`leadTimeDemand = (predictionValue / 30) × leadTimeDays`.  Stated separately
from the source-derived `calculateReorderQuantity` for comparison. -/
def reorderQuantitySpec (currentStock predictionValue safetyStock
    leadTimeDays : ℚ) : ℚ :=
  max 0 ((predictionValue / 30) * leadTimeDays + safetyStock - currentStock)

/-- Modelled from the spec: `databaseService.getLowStockItems(threshold)` is
not under `src/`; per the spec it queries the items whose current quantity is
below the given low-stock threshold. -/
def getLowStockItems (items : List Item) (threshold : ℚ) : List Item :=
  items.filter (fun it => it.quantity < threshold)

/-- The `data` payload attached to a reorder recommendation at its
construction site. -/
def reorderPayload (cfg : OptimizationConfig) (item : Item)
    (prediction : Prediction) : ReorderData :=
  { itemId := item.id, sku := item.sku,
    currentStock := item.quantity,
    predictedDemand := prediction.prediction,
    recommendedOrder := calculateReorderQuantity cfg item prediction,
    reorderPoint := cfg.reorderPoint }

/-- The reorder recommendation record built inside
`generateReorderRecommendations` for one item and its matched prediction. -/
def mkReorderRecommendation (cfg : OptimizationConfig) (now : Nat)
    (item : Item) (prediction : Prediction) : Recommendation :=
  let recommendedOrder := calculateReorderQuantity cfg item prediction
  { id := reorderIdBase ++ item.sku ++ dashSep ++ toString now,
    type := RecommendationType.reorder,
    priority := if item.quantity < cfg.reorderPoint then
        Severity.high else Severity.medium,
    title := reorderTitleBase ++ item.name,
    description := descCurrentStock ++ toString item.quantity ++
      descPredictedDemand ++ toString prediction.prediction ++
      descRecommendedOrder ++ toString recommendedOrder,
    impactCost := recommendedOrder * item.unitCost,
    impactRisk := riskStockout,
    impactBenefit := benefitPreventStockouts,
    reorderData := some (reorderPayload cfg item prediction),
    confidence := prediction.confidence, createdAt := now,
    status := RecommendationStatus.pending }

/-- The per-item body of the loop in `generateReorderRecommendations`: look
up the first demand prediction targeting the sku of the item and build a pending
reorder recommendation when its confidence is strictly greater than `0.8`. -/
def reorderRecForItem (cfg : OptimizationConfig)
    (predictions : List Prediction) (now : Nat) (item : Item) :
    Option Recommendation :=
  (predictions.find? (fun p =>
      (p.target == item.sku) && (p.type == PredictionType.demand))).bind
    (fun prediction =>
      if prediction.confidence > 8/10 then
        some (mkReorderRecommendation cfg now item prediction)
      else none)

/-- Embedding of `generateReorderRecommendations` from the optimization agent: disabled
unless demand forecasting is on; otherwise the loop body runs over the
low-stock items. -/
def generateReorderRecommendations (cfg : OptimizationConfig)
    (items : List Item) (predictions : List Prediction) (now : Nat) :
    List Recommendation :=
  if cfg.demandForecasting = false then []
  else
    (getLowStockItems items cfg.lowStockThreshold).filterMap
      (reorderRecForItem cfg predictions now)

/-! ## Theorems -/

/-- C1: For every abnormal condition, if handleFailure has already stored an
unresolved Failure for the same component, type and dedup time-bucket, then a
second detection of that identical condition within the dedup window does not
insert a second Failure record: after detectFailures processes it, exactly one
unresolved Failure record for that (component, type, time-bucket) key exists
in the store.  Formally: from a store holding no record with that condition, by its
id and no unresolved record with its dedup key, handling the condition once
stores it, and handling the identical condition a second time leaves the
store unchanged, with exactly one unresolved record for that key. -/
theorem handleFailure_dedup_window (store : List Failure) (f : Failure)
    (hres : f.resolved = false)
    (hfresh : getFailure store f.id = none)
    (hkey : countUnresolvedWithKey store (dedupKey f) = 0) :
    (handleFailure (handleFailure store f).1 f).1 = (handleFailure store f).1 ∧
    countUnresolvedWithKey (handleFailure (handleFailure store f).1 f).1
      (dedupKey f) = 1 := by
  have h1 : (handleFailure store f).1 = store ++ [f] := by
    simp [handleFailure, hfresh, storeFailure]
  have hfind : getFailure (store ++ [f]) f.id = some f := by
    unfold getFailure at hfresh ⊢
    rw [List.find?_append, hfresh]
    simp
  have h2 : (handleFailure (store ++ [f]) f).1 = store ++ [f] := by
    simp [handleFailure, hfind, hres]
  have hcount : countUnresolvedWithKey (store ++ [f]) (dedupKey f) = 1 := by
    unfold countUnresolvedWithKey at hkey ⊢
    rw [List.filter_append, List.length_append, hkey]
    simp [hres]
  refine ⟨?_, ?_⟩
  · rw [h1, h2]
  · rw [h1, h2, hcount]

def c1Failure : Failure :=
  { id := cpuHighIdBase ++ toString 1000, component := compSystem,
    type := FailureType.resource, severity := Severity.high,
    description := descHighCpu, timestamp := 1000,
    detectionSource := srcResourceMonitor, resolved := false }

/-- Witness for C1: the high-CPU failure detected at time 1000, reported twice
to an empty store, yields exactly one unresolved record for its key. -/
theorem handleFailure_dedup_window_witness :
    (handleFailure (handleFailure [] c1Failure).1 c1Failure).1 =
      (handleFailure [] c1Failure).1 ∧
    countUnresolvedWithKey (handleFailure (handleFailure [] c1Failure).1
      c1Failure).1 (dedupKey c1Failure) = 1 :=
  handleFailure_dedup_window [] c1Failure rfl rfl rfl

def networkLatencyIdBase : String := "network-latency-"
def descHighLatency : String := "High network latency detected"
def srcNetworkMonitor : String := "network-monitor"

def c2NetworkFailure : Failure :=
  { id := networkLatencyIdBase ++ toString 1000, component := compNetwork,
    type := FailureType.network, severity := Severity.high,
    description := descHighLatency, timestamp := 1000,
    detectionSource := srcNetworkMonitor, resolved := false }

/-- C2 counterexample: a high-severity network failure does produce a
HealingAction — the `default` branch of `createHealingAction` yields a `restart`
action, and the auto-recovery pass executes one action for it, not zero. -/
theorem createHealingAction_network_counterexample :
    (createHealingAction 1000 c2NetworkFailure).type = HealingType.restart ∧
    (autoRecoveryActions 1000 [c2NetworkFailure]).length = 1 := by
  constructor <;> rfl

/-- C2 amended: the Failure.type → HealingAction.type mapping is
service→restart, blockchain→reconnect, database→reconnect when the
description contains the word `connection` and cleanup otherwise,
resource→scale, and network→restart through the `default` branch of the switch
(so network failures are auto-healed like the rest, not merely monitored);
the action starts pending with the severity of the failure. -/
theorem createHealingAction_type_mapping (now : Nat) (f : Failure) :
    (createHealingAction now f).type =
      (match f.type with
       | FailureType.service => HealingType.restart
       | FailureType.blockchain => HealingType.reconnect
       | FailureType.database =>
           if stringIncludes f.description wordConnection then
             HealingType.reconnect
           else HealingType.cleanup
       | FailureType.resource => HealingType.scale
       | FailureType.network => HealingType.restart) ∧
    (createHealingAction now f).severity = f.severity ∧
    (createHealingAction now f).status = ActionStatus.pending := by
  refine ⟨?_, rfl, rfl⟩
  cases hf : f.type <;>
    simp [createHealingAction, hf, beq_self_eq_true, true_and]

/-- A `filterMap` whose function keeps an image exactly on a Boolean guard is
the `map` of the `filter`. -/
theorem filterMap_guard_eq_map_filter {α β : Type} (p : α → Bool) (g : α → β)
    (l : List α) :
    (l.filterMap fun a => if p a then some (g a) else none) =
      (l.filter p).map g := by
  induction l with
  | nil => rfl
  | cons x xs ih =>
    by_cases h : p x <;> simp [List.filterMap_cons, List.filter_cons, h, ih]

/-- C3: During an auto-recovery pass, a HealingAction is created and executed
exactly for the failures of severity high or critical — the executed actions
are the image of the severity-filtered failures; a failure of severity low or
medium never contributes an action, yet it is still stored and alerted via
handleFailure (against any store not already holding its unresolved
duplicate). -/
theorem autoRecovery_severity_gate (now : Nat) (failures : List Failure) :
    autoRecoveryActions now failures =
      (failures.filter (fun f => (f.severity == Severity.critical) ||
        (f.severity == Severity.high))).map (createHealingAction now) ∧
    (∀ f ∈ failures,
      (f.severity = Severity.low ∨ f.severity = Severity.medium) →
      createHealingAction now f ∉ autoRecoveryActions now failures) ∧
    (∀ (store : List Failure), ∀ f ∈ failures,
      (f.severity = Severity.low ∨ f.severity = Severity.medium) →
      getFailure store f.id = none →
      (handleFailure store f).1 = store ++ [f] ∧
      (handleFailure store f).2 =
        [Alert.failureAlert (msgFailureDetectedIn ++ f.component)]) := by
  have hmap : autoRecoveryActions now failures =
      (failures.filter (fun f => (f.severity == Severity.critical) ||
        (f.severity == Severity.high))).map (createHealingAction now) := by
    unfold autoRecoveryActions
    exact filterMap_guard_eq_map_filter _ _ _
  refine ⟨hmap, ?_, ?_⟩
  · intro f _hf hsev hmem
    rw [hmap] at hmem
    rcases List.mem_map.mp hmem with ⟨g, hg, heq⟩
    have hgsev : g.severity = Severity.critical ∨ g.severity = Severity.high := by
      have := List.of_mem_filter hg
      simpa [beq_iff_eq] using this
    have hsame : g.severity = f.severity := by
      have := congrArg HealingAction.severity heq
      simpa [createHealingAction] using this
    rcases hsev with h | h <;> rcases hgsev with h2 | h2 <;>
      rw [hsame, h] at h2 <;> cases h2
  · intro store f _hf _hsev hfresh
    constructor <;> simp [handleFailure, hfresh, storeFailure]

def c3LowFailure : Failure :=
  { id := diskHighIdBase ++ toString 1000, component := compSystem,
    type := FailureType.resource, severity := Severity.medium,
    description := descHighDisk, timestamp := 1000,
    detectionSource := srcResourceMonitor, resolved := false }

/-- Witness for C3: the medium-severity disk failure contributes no executed
action to its own auto-recovery pass, yet handleFailure stores it into an
empty store and sends the failure alert for it. -/
theorem autoRecovery_severity_gate_witness :
    createHealingAction 1000 c3LowFailure ∉
      autoRecoveryActions 1000 [c3LowFailure] ∧
    (handleFailure [] c3LowFailure).1 = [] ++ [c3LowFailure] ∧
    (handleFailure [] c3LowFailure).2 =
      [Alert.failureAlert (msgFailureDetectedIn ++ c3LowFailure.component)] :=
  ⟨(autoRecovery_severity_gate 1000 [c3LowFailure]).2.1 c3LowFailure
      (List.mem_singleton.mpr rfl) (Or.inr rfl),
   (autoRecovery_severity_gate 1000 [c3LowFailure]).2.2 [] c3LowFailure
      (List.mem_singleton.mpr rfl) (Or.inr rfl) rfl⟩

/-- C4: When the remediation primitive raises during executeHealingAction, the
returned action has status failed with the error message recorded, a critical
alert is raised, the action is persisted, and the function performs exactly
one primitive invocation (no automatic retry) and never itself raises (it is
a total function returning the action). -/
theorem executeHealingAction_failure_path (api : OperationalApi) (now : Nat)
    (action : HealingAction) (msg : String)
    (hrun : runHealingPrimitive api action.type action.component =
      Except.error msg) :
    (executeHealingAction api now action).1.status = ActionStatus.failed ∧
    (executeHealingAction api now action).1.errorMessage = some msg ∧
    (executeHealingAction api now action).2.alerts =
      [Alert.criticalAlert (msgHealingActionSp ++ healingTypeName action.type ++
        msgFailedFor ++ action.component)] ∧
    (executeHealingAction api now action).2.storedActions =
      [(executeHealingAction api now action).1] ∧
    (executeHealingAction api now action).2.primitiveCalls = 1 := by
  simp [executeHealingAction, hrun]

def emptyResult : String := ""
def sampleActionId : String := "healing-api-1000"
def sampleActionDesc : String := "Auto-healing action for api check"

def c4Api : OperationalApi :=
  { restartService := fun _ => Except.ok emptyResult,
    rollbackTransaction := fun _ => Except.ok emptyResult,
    scaleResources := fun _ => Except.ok emptyResult,
    databaseReconnect := Except.ok emptyResult,
    blockchainReconnect := Except.ok emptyResult,
    databaseCleanup := Except.ok emptyResult,
    systemCleanup := Except.ok emptyResult }

def c4Action : HealingAction :=
  { id := sampleActionId, type := HealingType.reconnect, component := compApi,
    severity := Severity.high, description := sampleActionDesc,
    executedAt := none, status := ActionStatus.pending, result := none,
    errorMessage := none }

/-- Witness for C4: reconnecting the `api` component raises (the source throws
for unknown reconnection targets), and the action comes back failed, with the
message recorded, a critical alert, persistence, and one primitive call. -/
theorem executeHealingAction_failure_path_witness :
    (executeHealingAction c4Api 1000 c4Action).1.status = ActionStatus.failed ∧
    (executeHealingAction c4Api 1000 c4Action).1.errorMessage =
      some (msgUnknownReconnect ++ compApi) ∧
    (executeHealingAction c4Api 1000 c4Action).2.alerts =
      [Alert.criticalAlert (msgHealingActionSp ++
        healingTypeName c4Action.type ++ msgFailedFor ++ c4Action.component)] ∧
    (executeHealingAction c4Api 1000 c4Action).2.storedActions =
      [(executeHealingAction c4Api 1000 c4Action).1] ∧
    (executeHealingAction c4Api 1000 c4Action).2.primitiveCalls = 1 :=
  executeHealingAction_failure_path c4Api 1000 c4Action
    (msgUnknownReconnect ++ compApi) rfl

def c5Action : HealingAction :=
  { id := sampleActionId, type := HealingType.reconnect, component := compApi,
    severity := Severity.high, description := sampleActionDesc,
    executedAt := some 5, status := ActionStatus.completed,
    result := some emptyResult, errorMessage := none }

def c5Api : OperationalApi := c4Api

/-- C5 counterexample: executeHealingAction carries no terminal-state guard —
called on an action whose status is already `completed`, it re-executes the
remediation and here moves the action to `failed`, so a terminal state is not
final. -/
theorem executeHealingAction_terminal_not_final :
    c5Action.status = ActionStatus.completed ∧
    (executeHealingAction c5Api 6 c5Action).1.status = ActionStatus.failed := by
  constructor <;> rfl

/-- C5 amended: within one executeHealingAction call the status moves to
executing and then to exactly one of completed or failed; but the call
performs this regardless of the incoming status (one primitive invocation
even from a terminal state), so a further call on a completed or failed
action re-executes it and may change its terminal status. -/
theorem executeHealingAction_transitions (api : OperationalApi) (now : Nat)
    (action : HealingAction) :
    ((executeHealingAction api now action).1.status = ActionStatus.completed ∨
     (executeHealingAction api now action).1.status = ActionStatus.failed) ∧
    (executeHealingAction api now action).2.statusTrace =
      [ActionStatus.executing, (executeHealingAction api now action).1.status] ∧
    (executeHealingAction api now action).2.primitiveCalls = 1 := by
  cases hrun : runHealingPrimitive api action.type action.component <;>
    simp [executeHealingAction, hrun]

def itemIdOne : String := "item-1"
def skuOne : String := "SKU-001"
def nameOne : String := "Widget"

def c6Config : OptimizationConfig :=
  { predictionInterval := 60, analysisInterval := 60,
    recommendationInterval := 60, lowStockThreshold := 10,
    overstockThreshold := 100, reorderPoint := 20,
    predictionAccuracy := 9/10, demandForecasting := true,
    fraudDetection := true, costOptimization := true,
    resourceOptimization := true }

def c6Item : Item :=
  { id := itemIdOne, sku := skuOne, name := nameOne, quantity := 10,
    unitCost := 2 }

def c6Predictor : Item → Option RawPrediction :=
  fun _ => some { value := 50, confidence := 4/5, factors := [] }

def c6KeptPrediction : Prediction :=
  { id := demandIdBase ++ skuOne ++ dashSep ++ toString 0,
    type := PredictionType.demand, target := skuOne,
    timeframe := timeframe30d, prediction := 50, confidence := 4/5,
    factors := [], createdAt := 0 }

/-- C6 counterexample: with the configured confidence cutoff
(`predictionAccuracy`) set to 0.9, a prediction of confidence 0.8 — below the
configured cutoff — is still produced and stored by
generateDemandPredictions, because the 0.7 cutoff is a hard-coded literal and
the configuration is never consulted. -/
theorem generateDemandPredictions_cutoff_counterexample :
    generateDemandPredictions c6Config c6Predictor [c6Item] 0 =
      [c6KeptPrediction] ∧
    c6KeptPrediction.confidence < c6Config.predictionAccuracy := by
  constructor
  · norm_num [generateDemandPredictions, c6Predictor, c6Item, c6KeptPrediction,
      List.filterMap_cons, List.filterMap_nil]
  · norm_num [c6KeptPrediction, c6Config]

/-- C6 amended: generateDemandPredictions discards a prediction entirely
(neither stored nor returned) unless its confidence is strictly greater than
0.7, and that cutoff is a hard-coded literal: the output is independent of
the configuration, so the configured predictionAccuracy threshold is never
consulted. -/
theorem generateDemandPredictions_hardcoded_cutoff
    (cfg cfg2 : OptimizationConfig)
    (predictDemand : Item → Option RawPrediction) (items : List Item)
    (now : Nat) :
    generateDemandPredictions cfg predictDemand items now =
      generateDemandPredictions cfg2 predictDemand items now ∧
    ∀ p ∈ generateDemandPredictions cfg predictDemand items now,
      p.confidence > 7/10 := by
  refine ⟨rfl, ?_⟩
  intro p hp
  rcases List.mem_filterMap.mp hp with ⟨item, _hin, heq⟩
  cases hpred : predictDemand item with
  | none => rw [hpred] at heq; cases heq
  | some raw =>
    rw [hpred] at heq
    simp only [] at heq
    by_cases hc : raw.confidence > 7/10
    · rw [if_pos hc] at heq
      cases heq
      exact hc
    · rw [if_neg hc] at heq
      cases heq

/-- Witness for C6 amended: on the concrete input, the output is independent
of the configuration and the one kept prediction has confidence above 0.7. -/
theorem generateDemandPredictions_hardcoded_cutoff_witness :
    generateDemandPredictions c6Config c6Predictor [c6Item] 0 =
      generateDemandPredictions (OptimizationConfig.mk 1 1 1 0 0 0 0
        false false false false) c6Predictor [c6Item] 0 ∧
    c6KeptPrediction.confidence > 7/10 := by
  have hmem : c6KeptPrediction ∈
      generateDemandPredictions c6Config c6Predictor [c6Item] 0 := by
    have hlist : generateDemandPredictions c6Config c6Predictor [c6Item] 0 =
        [c6KeptPrediction] := by
      norm_num [generateDemandPredictions, c6Predictor, c6Item,
        c6KeptPrediction, List.filterMap_cons, List.filterMap_nil]
    rw [hlist]
    exact List.mem_singleton.mpr rfl
  exact ⟨(generateDemandPredictions_hardcoded_cutoff c6Config
      (OptimizationConfig.mk 1 1 1 0 0 0 0 false false false false)
      c6Predictor [c6Item] 0).1,
    (generateDemandPredictions_hardcoded_cutoff c6Config
      (OptimizationConfig.mk 1 1 1 0 0 0 0 false false false false)
      c6Predictor [c6Item] 0).2 c6KeptPrediction hmem⟩

/-- C7: For every configuration, item and demand prediction,
calculateReorderQuantity agrees with the spec formula
max(0, leadTimeDemand + safetyStock − currentStock) with
leadTimeDemand = (prediction/30)×7 and safetyStock the configured reorder
point; in particular, on quantity=5, predicted 30-day demand=90,
reorderPoint=20 it returns 36. -/
theorem calculateReorderQuantity_correct (cfg : OptimizationConfig)
    (item : Item) (p : Prediction) :
    calculateReorderQuantity cfg item p =
      reorderQuantitySpec item.quantity p.prediction cfg.reorderPoint 7 ∧
    (item.quantity = 5 → p.prediction = 90 → cfg.reorderPoint = 20 →
      calculateReorderQuantity cfg item p = 36) := by
  refine ⟨rfl, ?_⟩
  intro hq hp hr
  simp only [calculateReorderQuantity, hq, hp, hr]
  rw [show ((90:ℚ)/30) * 7 + 20 - 5 = 36 by norm_num]
  exact max_eq_right (by norm_num)

def c7Item : Item :=
  { id := itemIdOne, sku := skuOne, name := nameOne, quantity := 5,
    unitCost := 2 }

def c7Prediction : Prediction :=
  { id := demandIdBase ++ skuOne ++ dashSep ++ toString 0,
    type := PredictionType.demand, target := skuOne,
    timeframe := timeframe30d, prediction := 90, confidence := 9/10,
    factors := [], createdAt := 0 }

/-- Witness for C7: the concrete reorder computation on quantity=5,
demand=90, reorderPoint=20 equals the spec formula and yields 36. -/
theorem calculateReorderQuantity_correct_witness :
    calculateReorderQuantity c6Config c7Item c7Prediction =
      reorderQuantitySpec c7Item.quantity c7Prediction.prediction
        c6Config.reorderPoint 7 ∧
    calculateReorderQuantity c6Config c7Item c7Prediction = 36 :=
  ⟨(calculateReorderQuantity_correct c6Config c7Item c7Prediction).1,
   (calculateReorderQuantity_correct c6Config c7Item c7Prediction).2
     rfl rfl rfl⟩

/-- C8: An item yields a reorder Recommendation iff its matching demand
prediction has confidence strictly greater than 0.8 and its quantity is below
the configured low-stock threshold; the priority of the recommendation is high
when the quantity is below the configured reorder point and medium otherwise.
Stated for stores whose items have distinct skus and whose demand predictions
for the sku of the item are unique, so that "the matching prediction" is
unambiguous. -/
theorem generateReorderRecommendations_fire_condition
    (cfg : OptimizationConfig) (items : List Item)
    (predictions : List Prediction) (now : Nat) (item : Item)
    (hfeat : cfg.demandForecasting = true)
    (hitem : item ∈ items)
    (hskuUnique : ∀ i ∈ items, ∀ j ∈ items, i.sku = j.sku → i = j)
    (hpredUnique : ∀ p ∈ predictions, ∀ q ∈ predictions,
      p.target = item.sku → q.target = item.sku →
      p.type = PredictionType.demand → q.type = PredictionType.demand →
      p = q) :
    ((∃ r ∈ generateReorderRecommendations cfg items predictions now,
        ∃ d, r.reorderData = some d ∧ d.sku = item.sku) ↔
      (item.quantity < cfg.lowStockThreshold ∧
        ∃ p ∈ predictions, p.target = item.sku ∧
          p.type = PredictionType.demand ∧ p.confidence > 8/10)) ∧
    (∀ r ∈ generateReorderRecommendations cfg items predictions now,
      ∀ d, r.reorderData = some d → d.sku = item.sku →
        r.priority = (if item.quantity < cfg.reorderPoint then Severity.high
          else Severity.medium)) := by
  have hL : generateReorderRecommendations cfg items predictions now =
      (getLowStockItems items cfg.lowStockThreshold).filterMap
        (reorderRecForItem cfg predictions now) := by
    rw [generateReorderRecommendations, if_neg]
    simp [hfeat]
  have hshape : ∀ r ∈ generateReorderRecommendations cfg items predictions now,
      ∃ it p, it ∈ items ∧ it.quantity < cfg.lowStockThreshold ∧
        p ∈ predictions ∧ p.target = it.sku ∧
        p.type = PredictionType.demand ∧ p.confidence > 8/10 ∧
        r = mkReorderRecommendation cfg now it p := by
    intro r hr
    rw [hL] at hr
    rcases List.mem_filterMap.mp hr with ⟨it, hitlow, hbuild⟩
    have hitmem : it ∈ items := List.mem_of_mem_filter hitlow
    have hitq : it.quantity < cfg.lowStockThreshold := by
      have := List.of_mem_filter hitlow
      simpa [getLowStockItems] using this
    cases hfind : predictions.find? (fun p =>
        (p.target == it.sku) && (p.type == PredictionType.demand)) with
    | none =>
      rw [reorderRecForItem, hfind, Option.none_bind] at hbuild
      cases hbuild
    | some p =>
      rw [reorderRecForItem, hfind, Option.some_bind] at hbuild
      by_cases hc : p.confidence > 8/10
      · rw [if_pos hc] at hbuild
        have hpm : p ∈ predictions := List.mem_of_find?_eq_some hfind
        have hsat := List.find?_some hfind
        simp only [Bool.and_eq_true, beq_iff_eq] at hsat
        exact ⟨it, p, hitmem, hitq, hpm, hsat.1, hsat.2, hc,
          (Option.some.inj hbuild).symm⟩
      · rw [if_neg hc] at hbuild
        cases hbuild
  have hpayload : ∀ (it : Item) (p : Prediction),
      (mkReorderRecommendation cfg now it p).reorderData =
        some (reorderPayload cfg it p) := fun _ _ => rfl
  have hprio : ∀ (it : Item) (p : Prediction),
      (mkReorderRecommendation cfg now it p).priority =
        (if it.quantity < cfg.reorderPoint then Severity.high
          else Severity.medium) := fun _ _ => rfl
  constructor
  · constructor
    · rintro ⟨r, hr, d, hd, hdsku⟩
      rcases hshape r hr with ⟨it, p, hitmem, hitq, hpm, htgt, htype, hc, hreq⟩
      rw [hreq, hpayload] at hd
      have hde := Option.some.inj hd
      have hdit : d.sku = it.sku := by
        rw [← hde]
        rfl
      have hit_eq : it = item := by
        refine hskuUnique it hitmem item hitem ?_
        rw [← hdit, hdsku]
      refine ⟨?_, p, hpm, ?_, htype, hc⟩
      · rw [← hit_eq]
        exact hitq
      · rw [← hit_eq]
        exact htgt
    · rintro ⟨hlow, p, hpm, htgt, htype, hc⟩
      have hex : ∃ x ∈ predictions,
          ((x.target == item.sku) && (x.type == PredictionType.demand)) = true :=
        ⟨p, hpm, by simp [htgt, htype]⟩
      rcases Option.isSome_iff_exists.mp (List.find?_isSome.mpr hex) with ⟨q, hq⟩
      have hsat := List.find?_some hq
      simp only [Bool.and_eq_true, beq_iff_eq] at hsat
      have hqm := List.mem_of_find?_eq_some hq
      have hqp : q = p :=
        hpredUnique q hqm p hpm hsat.1 htgt hsat.2 htype
      have hqc : q.confidence > 8/10 := by
        rw [hqp]
        exact hc
      have hmemlow : item ∈ getLowStockItems items cfg.lowStockThreshold := by
        rw [getLowStockItems]
        exact List.mem_filter.mpr ⟨hitem, by simpa using hlow⟩
      have hbuildit : reorderRecForItem cfg predictions now item =
          some (mkReorderRecommendation cfg now item q) := by
        rw [reorderRecForItem, hq, Option.some_bind, if_pos hqc]
      refine ⟨mkReorderRecommendation cfg now item q, ?_,
        reorderPayload cfg item q, hpayload item q, rfl⟩
      rw [hL]
      exact List.mem_filterMap.mpr ⟨item, hmemlow, hbuildit⟩
  · intro r hr d hd hdsku
    rcases hshape r hr with ⟨it, p, hitmem, _hitq, _hpm, _htgt, _htype, _hc, hreq⟩
    rw [hreq, hpayload] at hd
    have hde := Option.some.inj hd
    have hdit : d.sku = it.sku := by
      rw [← hde]
      rfl
    have hit_eq : it = item := by
      refine hskuUnique it hitmem item hitem ?_
      rw [← hdit, hdsku]
    rw [hreq, hprio, hit_eq]

def c8Item : Item :=
  { id := itemIdOne, sku := skuOne, name := nameOne, quantity := 3,
    unitCost := 2 }

def c8Prediction : Prediction :=
  { id := demandIdBase ++ skuOne ++ dashSep ++ toString 0,
    type := PredictionType.demand, target := skuOne,
    timeframe := timeframe30d, prediction := 90, confidence := 9/10,
    factors := [], createdAt := 0 }

/-- Witness for C8: one item of quantity 3 under a low-stock threshold of 10
and a reorder point of 20, with a matching 0.9-confidence demand prediction. -/
theorem generateReorderRecommendations_fire_condition_witness :
    ((∃ r ∈ generateReorderRecommendations c6Config [c8Item] [c8Prediction] 0,
        ∃ d, r.reorderData = some d ∧ d.sku = c8Item.sku) ↔
      (c8Item.quantity < c6Config.lowStockThreshold ∧
        ∃ p ∈ [c8Prediction], p.target = c8Item.sku ∧
          p.type = PredictionType.demand ∧ p.confidence > 8/10)) ∧
    (∀ r ∈ generateReorderRecommendations c6Config [c8Item] [c8Prediction] 0,
      ∀ d, r.reorderData = some d → d.sku = c8Item.sku →
        r.priority = (if c8Item.quantity < c6Config.reorderPoint then
          Severity.high else Severity.medium)) :=
  generateReorderRecommendations_fire_condition c6Config [c8Item]
    [c8Prediction] 0 c8Item rfl (List.mem_singleton.mpr rfl)
    (by
      intro i hi j hj _h
      rw [List.mem_singleton.mp hi, List.mem_singleton.mp hj])
    (by
      intro p hp q hq _h1 _h2 _h3 _h4
      rw [List.mem_singleton.mp hp, List.mem_singleton.mp hq])

/-! ## Lifecycle reachability -/

/-- From a freshly constructed healing agent, any sequence of start/stop calls
leaves the agent either stopped with no timers or in the one started state. -/
theorem healingRun_reachable (cfg : HealingConfig) (ops : List LifecycleOp)
    (s : AgentLoopState HealingConcern)
    (hs : s = initialAgentState ∨ s = healingStart cfg initialAgentState) :
    healingRun cfg ops s = initialAgentState ∨
      healingRun cfg ops s = healingStart cfg initialAgentState := by
  induction ops generalizing s with
  | nil => exact hs
  | cons op rest ih =>
    rw [healingRun, List.foldl_cons]
    refine ih _ ?_
    cases op with
    | startOp =>
      rcases hs with h | h
      · right
        rw [h]
      · right
        rw [h]
        simp [healingStart, initialAgentState]
    | stopOp =>
      rcases hs with h | h
      · left
        rw [h]
        simp [healingStop, initialAgentState]
      · left
        rw [h]
        simp [healingStop, healingStart, initialAgentState]

/-- From a freshly constructed optimization agent, any sequence of start/stop
calls leaves the agent either stopped with no timers or in the one started
state. -/
theorem optimizationRun_reachable (ops : List LifecycleOp)
    (s : AgentLoopState OptimizationConcern)
    (hs : s = initialAgentState ∨ s = optimizationStart initialAgentState) :
    optimizationRun ops s = initialAgentState ∨
      optimizationRun ops s = optimizationStart initialAgentState := by
  induction ops generalizing s with
  | nil => exact hs
  | cons op rest ih =>
    rw [optimizationRun, List.foldl_cons]
    refine ih _ ?_
    cases op with
    | startOp =>
      rcases hs with h | h
      · right
        rw [h]
      · right
        rw [h]
        simp [optimizationStart, initialAgentState]
    | stopOp =>
      rcases hs with h | h
      · left
        rw [h]
        simp [optimizationStop, initialAgentState]
      · left
        rw [h]
        simp [optimizationStop, optimizationStart, initialAgentState]

/-- C9: For both agents, start() while running schedules nothing further and
stop() while stopped is a no-op; every reachable state carries at most one
timer per concern; and a stop()/start() cycle from a fresh agent leaves the
same single started state as one start(), with exactly one timer per started
concern (the auto-recovery timer of the healing agent exists exactly when auto
healing is enabled). -/
theorem agent_lifecycle_idempotent_no_duplicates (cfg : HealingConfig) :
    (∀ s : AgentLoopState HealingConcern, s.isRunning = true →
      healingStart cfg s = s) ∧
    (∀ s : AgentLoopState HealingConcern, s.isRunning = false →
      healingStop s = s) ∧
    (∀ s : AgentLoopState OptimizationConcern, s.isRunning = true →
      optimizationStart s = s) ∧
    (∀ s : AgentLoopState OptimizationConcern, s.isRunning = false →
      optimizationStop s = s) ∧
    (∀ (ops : List LifecycleOp) (c : HealingConcern),
      timerCount (healingRun cfg ops initialAgentState) c ≤ 1) ∧
    (∀ (ops : List LifecycleOp) (c : OptimizationConcern),
      timerCount (optimizationRun ops initialAgentState) c ≤ 1) ∧
    (healingRun cfg
        [LifecycleOp.startOp, LifecycleOp.stopOp, LifecycleOp.startOp]
        initialAgentState = healingStart cfg initialAgentState ∧
      timerCount (healingStart cfg initialAgentState)
        HealingConcern.healthCheck = 1 ∧
      timerCount (healingStart cfg initialAgentState)
        HealingConcern.autoRecovery =
          (if cfg.autoHealingEnabled then 1 else 0)) ∧
    (optimizationRun
        [LifecycleOp.startOp, LifecycleOp.stopOp, LifecycleOp.startOp]
        initialAgentState = optimizationStart initialAgentState ∧
      ∀ c : OptimizationConcern,
        timerCount (optimizationStart initialAgentState) c = 1) := by
  have hHcount : ∀ c : HealingConcern,
      timerCount (healingStart cfg initialAgentState) c ≤ 1 := by
    intro c
    cases c <;> cases h : cfg.autoHealingEnabled <;>
      simp only [timerCount, healingStart, healingStartTimers,
        initialAgentState, h] <;> decide
  have hOcount : ∀ c : OptimizationConcern,
      timerCount (optimizationStart initialAgentState) c = 1 := by
    intro c
    cases c <;>
      simp only [timerCount, optimizationStart, optimizationStartTimers,
        initialAgentState] <;> decide
  refine ⟨?_, ?_, ?_, ?_, ?_, ?_, ⟨?_, ?_, ?_⟩, ⟨?_, hOcount⟩⟩
  · intro s h
    simp [healingStart, h]
  · intro s h
    simp [healingStop, h]
  · intro s h
    simp [optimizationStart, h]
  · intro s h
    simp [optimizationStop, h]
  · intro ops c
    rcases healingRun_reachable cfg ops initialAgentState (Or.inl rfl) with
      h | h
    · rw [h]
      simp [timerCount, initialAgentState]
    · rw [h]
      exact hHcount c
  · intro ops c
    rcases optimizationRun_reachable ops initialAgentState (Or.inl rfl) with
      h | h
    · rw [h]
      simp [timerCount, initialAgentState]
    · rw [h]
      rw [hOcount c]
  · simp [healingRun, List.foldl_cons, List.foldl_nil, healingStart,
      healingStop, initialAgentState]
  · cases h : cfg.autoHealingEnabled <;>
      simp only [timerCount, healingStart, healingStartTimers,
        initialAgentState, h] <;> decide
  · cases h : cfg.autoHealingEnabled <;>
      simp only [timerCount, healingStart, healingStartTimers,
        initialAgentState, h] <;> decide
  · simp [optimizationRun, List.foldl_cons, List.foldl_nil, optimizationStart,
      optimizationStop, initialAgentState]

def c9Config : HealingConfig :=
  { healthCheckInterval := 30, autoRecoveryInterval := 60, maxFailures := 3,
    recoveryTimeout := 300, circuitBreakerThreshold := 5,
    autoHealingEnabled := true, restartServices := true,
    rollbackTransactions := false, scaleResources := true }

def c9RunningHealing : AgentLoopState HealingConcern :=
  { isRunning := true, intervals := [HealingConcern.healthCheck] }

def c9StoppedOptimization : AgentLoopState OptimizationConcern :=
  { isRunning := false, intervals := [] }

/-- Witness for C9: concrete lifecycle facts for a healing agent with auto
healing enabled and for the optimization agent. -/
theorem agent_lifecycle_idempotent_no_duplicates_witness :
    healingStart c9Config c9RunningHealing = c9RunningHealing ∧
    optimizationStop c9StoppedOptimization = c9StoppedOptimization ∧
    timerCount (healingRun c9Config
      [LifecycleOp.startOp, LifecycleOp.stopOp, LifecycleOp.startOp]
      initialAgentState) HealingConcern.healthCheck ≤ 1 :=
  ⟨(agent_lifecycle_idempotent_no_duplicates c9Config).1 c9RunningHealing rfl,
   (agent_lifecycle_idempotent_no_duplicates c9Config).2.2.2.1
     c9StoppedOptimization rfl,
   (agent_lifecycle_idempotent_no_duplicates c9Config).2.2.2.2.1
     [LifecycleOp.startOp, LifecycleOp.stopOp, LifecycleOp.startOp]
     HealingConcern.healthCheck⟩

/-- C10: checkComponentHealth reports redis healthy no matter the actual
state of the redis service (the probe body is a stub), so health monitoring
only ever records successes on the redis breaker and that breaker can never
leave the closed state; any component outside the monitored four reports
unhealthy. -/
theorem checkComponentHealth_redis_stub :
    (∀ o : HealthCheckOracle, checkComponentHealth o compRedis = true) ∧
    (∀ (threshold now : Nat) (o : HealthCheckOracle) (b : BreakerData),
      healthCheckStep threshold now o compRedis b = recordSuccess b) ∧
    (∀ (o : HealthCheckOracle) (c : String), c ∉ monitoredComponents →
      checkComponentHealth o c = false) ∧
    (∀ (threshold : Nat) (cycles : List (Nat × HealthCheckOracle)),
      (runHealthChecks threshold compRedis cycles initialBreaker).state =
        BreakerState.closed) := by
  have hredis : ∀ o : HealthCheckOracle,
      checkComponentHealth o compRedis = true := by
    intro o
    rfl
  refine ⟨hredis, ?_, ?_, ?_⟩
  · intro threshold now o b
    simp [healthCheckStep, hredis o]
  · intro o c hc
    simp only [monitoredComponents, List.mem_cons, List.not_mem_nil,
      or_false, not_or] at hc
    obtain ⟨h1, h2, h3, h4⟩ := hc
    simp [checkComponentHealth, beq_iff_eq, h1, h2, h3, h4]
  · intro threshold cycles
    have hstep : ∀ (n : Nat) (o : HealthCheckOracle) (b : BreakerData),
        healthCheckStep threshold n o compRedis b = initialBreaker := by
      intro n o b
      simp [healthCheckStep, hredis o, recordSuccess, initialBreaker]
    have hrun : runHealthChecks threshold compRedis cycles initialBreaker =
        initialBreaker := by
      induction cycles with
      | nil => rfl
      | cons cyc rest ih =>
        rw [runHealthChecks, List.foldl_cons, hstep]
        exact ih
    rw [hrun]
    rfl

def c10Oracle : HealthCheckOracle :=
  { databaseHealthy := false, blockchainHealthy := false,
    apiHealthy := false, redisHealthy := false }

/-- Witness for C10: with every dependency actually down, redis still reports
healthy, an unmonitored component reports unhealthy, and one monitoring cycle
leaves the redis breaker closed. -/
theorem checkComponentHealth_redis_stub_witness :
    checkComponentHealth c10Oracle compRedis = true ∧
    checkComponentHealth c10Oracle compNetwork = false ∧
    healthCheckStep 1 5 c10Oracle compRedis initialBreaker =
      recordSuccess initialBreaker ∧
    (runHealthChecks 1 compRedis [(5, c10Oracle)] initialBreaker).state =
      BreakerState.closed :=
  ⟨checkComponentHealth_redis_stub.1 c10Oracle,
   checkComponentHealth_redis_stub.2.2.1 c10Oracle compNetwork (by decide),
   checkComponentHealth_redis_stub.2.1 1 5 c10Oracle initialBreaker,
   checkComponentHealth_redis_stub.2.2.2 1 [(5, c10Oracle)]⟩

end BlockchainInventory
